import Mathlib

/-!
Verification of the PrestaShop-to-WooCommerce image migration tool
(`migrator.py`, `config.py`, `exceptions.py`) against its specification.

The Python source is shallowly embedded: every network, filesystem and
database interaction is abstracted into an explicit environment value that
records the outcome of each external call, while all control flow, string
manipulation and bookkeeping of the Python code is translated faithfully
into executable Lean definitions. Python strings are Lean `String`s;
Python `list.sort(key=...)` (a stable sort) is embedded with
`List.insertionSort`, which is stable and therefore produces the same list
on every input; Python exceptions become `Except` values.
-/

namespace Migrator

/-! ## Python string primitives used by the source -/

/-- Accumulator version of Python `str.split(sep)` for a single-character
separator, over the character list of the string. -/
def splitOnCharAux (c : Char) : List Char → List Char → List (List Char)
  | [], cur => [cur.reverse]
  | x :: xs, cur =>
    if x = c then cur.reverse :: splitOnCharAux c xs []
    else splitOnCharAux c xs (x :: cur)

/-- Python `str.split(sep)` for a single-character separator. -/
def splitOnChar (c : Char) (l : List Char) : List (List Char) :=
  splitOnCharAux c l []

/-- Python `int(s)` on a string of decimal digits (most significant first).
On non-digit characters the Python call would raise; this total embedding
is only ever applied to all-digit strings by the translated code. -/
def digitsToNatAux : List Char → Nat → Nat
  | [], acc => acc
  | c :: cs, acc => digitsToNatAux cs (acc * 10 + (c.toNat - 48))

/-- Python `int(s)` on a digit string. -/
def digitsToNat (l : List Char) : Nat := digitsToNatAux l 0

/-- Python `os.path.basename`: everything after the last slash. -/
def pyBasename (s : String) : String :=
  String.mk ((splitOnChar '/' s.data).getLastD [])

/-- Python `str.lower()` (per-character lower-casing; file names here are
ASCII). -/
def pyLower (s : String) : String := String.mk (s.data.map Char.toLower)

/-- Python `str.endswith(t)`. -/
def pyEndsWith (s t : String) : Bool := t.data.isSuffixOf s.data

/-- Python `str(n)` for a natural number: its decimal digit characters,
most significant first, computed with a fuel argument for structural
recursion (`fuel > n` suffices). -/
def pyStrNatAux : Nat → Nat → List Char
  | 0, _ => []
  | fuel + 1, n =>
    if n < 10 then [Nat.digitChar n]
    else pyStrNatAux fuel (n / 10) ++ [Nat.digitChar (n % 10)]

/-- Python `str(n)` for a natural number. -/
def pyStrNat (n : Nat) : String := String.mk (pyStrNatAux (n + 1) n)

/-- Python truthiness test `re.match(r'^\d+$', s)` used on directory
names: the string is nonempty and consists of decimal digits only. -/
def isNumericStr (s : String) : Bool := !s.isEmpty && s.data.all Char.isDigit

/-! ## `FTPHandler.connect`  (migrator.py lines 73-89)

The connection state of the handler is the stored session (modelled by an
abstract session identifier); `ftplib.FTP(host)+login` is modelled by an
environment value: `.ok sid` when the transport hands back a fresh logged
in session, `.error e` when it raises. -/

/-- Connection-relevant state of `FTPHandler`: the host and the session
object currently stored in `self.connection` (`none` before any
connect). -/
structure FtpState where
  host : String
  connection : Option Nat
deriving DecidableEq

/-- `FTPConnectionError(host, error)` from exceptions.py. -/
structure FTPConnectionErrorData where
  host : String
  error : String
deriving DecidableEq

/-- Embeds `FTPHandler.connect`: it unconditionally constructs a fresh
`ftplib.FTP` session, logs in, stores it in `self.connection` and returns
`True`; any exception becomes `FTPConnectionError(host, error)`. -/
def ftp_connect (st : FtpState) (session : Except String Nat) :
    Except FTPConnectionErrorData (Bool × FtpState) :=
  match session with
  | .ok sid => .ok (true, { st with connection := some sid })
  | .error e => .error ⟨st.host, e⟩

/-! ## Catalog lookup  (migrator.py `_get_product_name`, lines 491-528)

`db_cursor` wraps `mysql.connector.Error` into `DatabaseError`;
`_connect_db` raises `DatabaseError("Erreur de connexion ...")` when the
connection cannot be established. The outcome of the database interaction
is a single environment value. -/

/-- Outcome of the catalog query issued by `_get_product_name`. -/
inductive DbOutcome where
  | connFail (msg : String)
  | queryFail (msg : String)
  | row (name : String)
  | noRow
deriving DecidableEq

/-- `DatabaseError(error)` from exceptions.py. -/
structure DatabaseErrorData where
  msg : String
deriving DecidableEq

/-- Characters stripped by `re.sub(r'[\\/*?:"<>|]', '', name)` in
`_get_product_name`, given by their code points: backslash 92, slash 47,
asterisk 42, question mark 63, colon 58, double quote 34, less-than 60,
greater-than 62, vertical bar 124. -/
def forbiddenNameChar (c : Char) : Bool :=
  c.toNat = 92 || c.toNat = 47 || c.toNat = 42 || c.toNat = 63 ||
  c.toNat = 58 || c.toNat = 34 || c.toNat = 60 || c.toNat = 62 ||
  c.toNat = 124

/-- The name sanitization in `_get_product_name`. -/
def sanitizeName (s : String) : String :=
  String.mk (s.data.filter (fun c => !forbiddenNameChar c))

/-- The body of the `try` block of `_get_product_name`: `db_cursor` turns
connection and query failures into `DatabaseError`; a fetched row is
sanitized; a missing row yields `None`. -/
def getProductNameTry (ev : DbOutcome) : Except DatabaseErrorData (Option String) :=
  match ev with
  | .connFail m => .error ⟨"Erreur de connexion à la base de données: " ++ m⟩
  | .queryFail m => .error ⟨m⟩
  | .row name => .ok (some (sanitizeName name))
  | .noRow => .ok none

/-- Embeds `ImageMigrator._get_product_name`: the surrounding
`except Exception` catches every failure (including the `DatabaseError`
raised by `db_cursor`) and returns `None`. -/
def get_product_name (ev : DbOutcome) (_pid : String) :
    Except DatabaseErrorData (Option String) :=
  match getProductNameTry ev with
  | .ok v => .ok v
  | .error _ => .ok none

/-! ## Remote directory path  (migrator.py lines 113-117) -/

/-- Embeds the path construction of `FTPHandler.get_product_images`:
`folder_path = '/'.join(list(str(product_id)))` followed by
`f"(base_path)(folder_path)/"`. -/
def product_folder_path (basePath : String) (productId : Nat) : String :=
  basePath ++ String.intercalate "/" ((pyStrNat productId).data.map String.singleton) ++ "/"

/-! ## Image classification  (migrator.py `FTPHandler.get_product_images`,
lines 100-139, with `IMAGE_PATTERNS` from config.py)

`product_id` reaches this function as the digit string of the product
directory name. The anchored patterns from config.py,
`main = '^<pid>\.jpg$'` and `additional = '^<pid>-\d+\.jpg$'`, are
embedded as exact string-shape tests (`\d` is taken as an ASCII decimal
digit). -/

/-- The anchored main-image pattern `^<pid>\.jpg$`: the file name is
exactly `<pid>.jpg`. -/
def isMainFile (pid file : String) : Bool := file == pid ++ ".jpg"

/-- The candidate digit block of the additional-image pattern: the
characters of `file` strictly between `<pid>-` and the final `.jpg`. -/
def additionalSuffix (pid file : String) : List Char :=
  (file.data.drop (pid.data.length + 1)).take
    ((file.data.drop (pid.data.length + 1)).length - 4)

/-- The anchored additional-image pattern `^<pid>-\d+\.jpg$`: the file is
exactly `<pid>-` followed by one or more decimal digits and `.jpg`. -/
def isAdditionalFile (pid file : String) : Bool :=
  !(additionalSuffix pid file).isEmpty && (additionalSuffix pid file).all Char.isDigit &&
    (file.data == pid.data ++ '-' :: (additionalSuffix pid file ++ ".jpg".data))

/-- The sort key of `additional_images.sort`, namely
`int(x.split('-')[1].split('.')[0])`. -/
def suffixNum (f : String) : Nat :=
  digitsToNat ((splitOnChar '.' ((splitOnChar '-' f.data).getD 1 [])).getD 0 [])

/-- One iteration of the classification loop of `get_product_images`:
only `.jpg` files are considered, a main match overwrites the main slot,
an additional match is appended, everything else is ignored. -/
def classifyStep (pid : String) (acc : Option String × List String) (file : String) :
    Option String × List String :=
  if pyEndsWith file ".jpg" then
    if isMainFile pid file then (some file, acc.2)
    else if isAdditionalFile pid file then (acc.1, acc.2 ++ [file])
    else acc
  else acc

/-- Comparison by the numeric sort key used for additional images. -/
def suffixLE (a b : String) : Prop := suffixNum a ≤ suffixNum b

instance : DecidableRel suffixLE := fun a b => Nat.decLe (suffixNum a) (suffixNum b)

instance : IsTotal String suffixLE := ⟨fun a b => Nat.le_total (suffixNum a) (suffixNum b)⟩

instance : IsTrans String suffixLE := ⟨fun _ _ _ => Nat.le_trans⟩

/-- Embeds `FTPHandler.get_product_images` after the directory listing:
classification of the listed file names followed by the stable sort of
the additional images by numeric suffix (Python `list.sort(key=...)` is
stable, as is `List.insertionSort`, so the embedding computes the same
list). Returns `(main_image, additional_images)`. -/
def get_product_images (pid : String) (files : List String) :
    Option String × List String :=
  let r := files.foldl (classifyStep pid) (none, [])
  (r.1, r.2.insertionSort suffixLE)

/-- Decimal value of a digit string, expressed through Mathlib's
`Nat.ofDigits` (least-significant-first digit list). -/
def specDigitVal (ds : String) : Nat :=
  Nat.ofDigits 10 ((ds.data.map (fun c => c.toNat - 48)).reverse)

/-! ## WordPress upload  (migrator.py `WordPressHandler`, lines 241-376)

`check_image_exists` and `upload_image` are embedded over an environment
recording the outcome of each HTTP interaction. A 200-response of the
media search carries the rendered titles of the returned items; a
201-response of the media upload carries the `id` field of the returned
JSON; a 200-response of the product fetch carries the `images` list of
the product (as media ids); the payload of the product update is an
observable argument of the environment so that theorems can speak about
the image list the code sends. -/

/-- Outcome of the `GET /media` search issued by `check_image_exists`. -/
inductive MediaSearch where
  | timeout
  | reqError (msg : String)
  | ok (titles : List String)
  | httpError (status : Nat) (body : String)

/-- Outcome of the multipart `POST /media` upload. -/
inductive PostOutcome where
  | timeout
  | reqError (msg : String)
  | response (status : Nat) (body : String) (id : Nat)

/-- Outcome of the `GET /products/(id)` fetch. -/
inductive GetOutcome where
  | timeout
  | reqError (msg : String)
  | response (status : Nat) (body : String) (images : List Nat)

/-- Outcome of the `PUT /products/(id)` update. -/
inductive PutOutcome where
  | timeout
  | reqError (msg : String)
  | response (status : Nat) (body : String)

/-- Environment of one `upload_image` call: the local filesystem check
and the four possible HTTP interactions. -/
structure WPEnv where
  fileExists : String → Bool
  mediaSearch : String → MediaSearch
  postMedia : PostOutcome
  getProduct : GetOutcome
  putProduct : List Nat → PutOutcome

/-- `APIError(endpoint, status_code, response)` from exceptions.py. -/
structure APIErrorData where
  endpoint : String
  status : Nat
  body : String
deriving DecidableEq

/-- The message of `APIError` as built by exceptions.py. -/
def apiErrorMessage (endpoint : String) (status : Nat) (body : String) : String :=
  "Erreur API (" ++ endpoint ++ "): " ++ Nat.repr status ++ " - " ++ body

/-- Embeds `WordPressHandler.check_image_exists`: empty names
short-circuit to `False`; a 200 search response is scanned for an item
whose rendered title equals the image name case-insensitively; a non-200
response raises `APIError("media", status, body)`; a timeout or request
exception raises `APIError("media", 0, message)`. -/
def check_image_exists (imageName : String) (search : MediaSearch) :
    Except APIErrorData Bool :=
  if imageName = "" then .ok false
  else
    match search with
    | .ok titles => .ok (titles.any (fun t => pyLower t == pyLower imageName))
    | .httpError s b => .error ⟨"media", s, b⟩
    | .timeout => .error ⟨"media", 0, "Timeout de la requête"⟩
    | .reqError m => .error ⟨"media", 0, m⟩

/-- Exceptions that can escape the `try` block of `upload_image`:
`requests` timeouts, other `requests` exceptions, and `APIError` (raised
explicitly by the block or by `check_image_exists`). -/
inductive PyExc where
  | timeout
  | reqExc (msg : String)
  | apiExc (endpoint : String) (status : Nat) (body : String)

/-- Exceptions escaping `upload_image` itself. `apiError` is declared
because the docstring announces `APIError`, so that theorems can state
whether it actually escapes. -/
inductive UploadErr where
  | fileNotFound (path : String)
  | imageUploadError (path : String) (cause : String)
  | apiError (endpoint : String) (status : Nat) (body : String)
deriving DecidableEq

/-- Success values of `upload_image` (the Python code returns `True` in
both cases; the constructor records which path was taken and, on a full
upload, the exact image list sent to the product update). -/
inductive UploadOk where
  | alreadyExists
  | uploaded (putImages : List Nat)
deriving DecidableEq

/-- The `try` block of `upload_image` (migrator.py lines 306-367):
existence check, multipart upload, product fetch, image-list merge
(prepend when main, append otherwise) and product update. -/
def uploadTry (env : WPEnv) (path pid : String) (isMain : Bool) : Except PyExc UploadOk :=
  match check_image_exists (pyBasename path) (env.mediaSearch (pyBasename path)) with
  | .error a => .error (.apiExc a.endpoint a.status a.body)
  | .ok true => .ok .alreadyExists
  | .ok false =>
    match env.postMedia with
    | .timeout => .error .timeout
    | .reqError m => .error (.reqExc m)
    | .response s body imageId =>
      if s = 201 then
        match env.getProduct with
        | .timeout => .error .timeout
        | .reqError m => .error (.reqExc m)
        | .response s2 body2 currentImages =>
          if s2 ≠ 200 then .error (.apiExc ("products/" ++ pid) s2 body2)
          else
            match env.putProduct
                (if isMain then imageId :: currentImages
                 else currentImages ++ [imageId]) with
            | .timeout => .error .timeout
            | .reqError m => .error (.reqExc m)
            | .response s3 body3 =>
              if s3 = 200 ∨ s3 = 201 then
                .ok (.uploaded
                  (if isMain then imageId :: currentImages
                   else currentImages ++ [imageId]))
              else .error (.apiExc ("products/" ++ pid) s3 body3)
      else .error (.apiExc "media" s body)

/-- Embeds `WordPressHandler.upload_image`: the file-existence guard,
then the `try` block with its `except` chain — `Timeout` becomes
`ImageUploadError(path, "Timeout de la requête")`, `RequestException`
becomes `ImageUploadError(path, str(error))`, and the final
`except Exception` turns every remaining exception (including
`APIError`) into `ImageUploadError(path, str(error))`. -/
def upload_image (env : WPEnv) (path pid : String) (isMain : Bool) :
    Except UploadErr UploadOk :=
  if env.fileExists path then
    match uploadTry env path pid isMain with
    | .ok r => .ok r
    | .error .timeout => .error (.imageUploadError path "Timeout de la requête")
    | .error (.reqExc m) => .error (.imageUploadError path m)
    | .error (.apiExc a s b) => .error (.imageUploadError path (apiErrorMessage a s b))
  else .error (.fileNotFound path)

/-! ### Destination-side state for sequences of uploads

The REST semantics of the destination (spec section 6): a successful
`POST /media` stores a media object titled by the upload metadata and
hands back a fresh id; a successful `PUT /products/(id)` replaces the
product image list with the sent payload. `happyEnv` is the environment
in which every HTTP call succeeds against this state. -/

/-- Destination-side state: media library titles, the id the server
assigns to the next uploaded media object, and the image list of the
destination product. -/
structure WooState where
  media : List String
  nextId : Nat
  productImages : List Nat
deriving DecidableEq

/-- Environment in which every HTTP call succeeds against state `st`. -/
def happyEnv (st : WooState) : WPEnv where
  fileExists := fun _ => true
  mediaSearch := fun _ => .ok st.media
  postMedia := .response 201 "" st.nextId
  getProduct := .response 200 "" st.productImages
  putProduct := fun _ => .response 200 ""

/-- One `upload_image` call against the live destination: the state is
updated with the effects of the calls the code actually makes (none on
the media-exists short-circuit; a stored media title and the replaced
product image list on a full upload). -/
def wooStep (st : WooState) (path pid : String) (isMain : Bool) : WooState :=
  match upload_image (happyEnv st) path pid isMain with
  | .ok (.uploaded l) =>
    { media := pyBasename path :: st.media, nextId := st.nextId + 1, productImages := l }
  | .ok .alreadyExists => st
  | .error _ => st

/-! ## Extraction orchestrator
(migrator.py `ImageMigrator.extract_prestashop_data`, lines 580-651, and
`FTPHandler.download_image`, lines 141-161)

The per-product walk is embedded over an environment giving, per
directory name, the result of the name lookup (total, because
`_get_product_name` never raises), the outcome of `get_product_images`,
the outcome of each `RETR` transfer, and the stock lookup (total, because
`_get_product_stock` never raises). -/

/-- `FileSystemError(operation, path, error)` from exceptions.py, also
used as the per-product exception type of the walk. -/
inductive ProdErr where
  | fsError (operation path cause : String)
  | other (msg : String)
deriving DecidableEq

/-- Embeds `FTPHandler.download_image`: a successful `RETR` returns
`True`; any failure raises `FileSystemError("téléchargement", path,
cause)`. No execution path returns `False`, although the docstring
documents `False` on failure. -/
def download_image (retrOutcome : Except String Unit) (imagePath : String) :
    Except ProdErr Bool :=
  match retrOutcome with
  | .ok _ => .ok true
  | .error e => .error (.fsError "téléchargement" imagePath e)

/-- Abstracted externals of one extraction run. -/
structure ExtractEnv where
  getName : String → Option String
  getImages : String → Except ProdErr (Option String × List String)
  retr : String → Except String Unit
  getStock : String → Nat

/-- The stored per-product record (`self.products_data[product_name]`):
source id, number of downloaded images, stock, staging folder name. -/
structure ProductData where
  id : String
  images : Nat
  stock : Nat
  folder : String
deriving DecidableEq

/-- The download loop of the extraction (migrator.py lines 622-627):
1-based enumeration, falsy (empty) image names skipped, count incremented
when `download_image` returns `True`; an exception aborts the loop and
propagates to the per-product handler. -/
def downloadLoop (env : ExtractEnv) : List String → Nat → Nat → Except ProdErr Nat
  | [], _, acc => .ok acc
  | img :: rest, idx, acc =>
    if img ≠ "" then
      match download_image (env.retr img) img with
      | .ok true => downloadLoop env rest (idx + 1) (acc + 1)
      | .ok false => downloadLoop env rest (idx + 1) acc
      | .error e => .error e
    else downloadLoop env rest (idx + 1) acc

/-- Processing of one candidate product directory (the body of the
per-product `try`): name lookup (skip on falsy name), image listing,
skip when no image at all, stock lookup, downloads, record construction.
`.ok none` is a skipped product, `.ok (some (name, record))` a fully
processed one, `.error` an exception reaching the per-product handler. -/
def processProduct (env : ExtractEnv) (dir : String) :
    Except ProdErr (Option (String × ProductData)) :=
  match env.getName dir with
  | none => .ok none
  | some name =>
    if name = "" then .ok none
    else
      match env.getImages dir with
      | .error e => .error e
      | .ok (mainImage, additionalImages) =>
        match (match mainImage with
                | some s => if s ≠ "" then [s] else []
                | none => []) ++ additionalImages with
        | [] => .ok none
        | allImages =>
          match downloadLoop env allImages 1 0 with
          | .error e => .error e
          | .ok downloaded =>
            .ok (some (name, ⟨dir, downloaded, env.getStock dir, name⟩))

/-- Dictionary write `self.products_data[name] = record` (a name
collision silently overwrites the prior record). -/
def insertRecord (recs : List (String × ProductData)) (name : String)
    (d : ProductData) : List (String × ProductData) :=
  if recs.any (fun r => r.1 == name) then
    recs.map (fun r => if r.1 == name then (name, d) else r)
  else recs ++ [(name, d)]

/-- The walk over the candidate directories: non-numeric names are
skipped, a skipped product leaves state untouched, a processed product is
stored and counted, an exception is caught and the walk continues. -/
def extractLoop (env : ExtractEnv) :
    List String → List (String × ProductData) → Nat → List (String × ProductData) × Nat
  | [], recs, n => (recs, n)
  | d :: ds, recs, n =>
    if isNumericStr d then
      match processProduct env d with
      | .ok (some (name, data)) => extractLoop env ds (insertRecord recs name data) (n + 1)
      | .ok none => extractLoop env ds recs n
      | .error _ => extractLoop env ds recs n
    else extractLoop env ds recs n

/-- Embeds `ImageMigrator.extract_prestashop_data` from the point where
the directory listing `dirs` has been obtained: returns
`(products_processed > 0, products_data)`. -/
def extract_prestashop_data (env : ExtractEnv) (dirs : List String) :
    Bool × List (String × ProductData) :=
  ((extractLoop env dirs [] 0).2 > 0, (extractLoop env dirs [] 0).1)

/-! ## Migration driver
(migrator.py `ImageMigrator.migrate_to_woocommerce`, lines 689-743)

Embedded over an environment giving the glob result of each staging
folder and the outcome of each upload. -/

/-- Abstracted externals of the migration phase: `glob folder name` is
the sorted listing of `<name>-*.jpg` in the staging folder, and
`upload path pid isMain` the outcome of `wp_handler.upload_image`. -/
structure MigEnv where
  glob : String → String → List String
  upload : String → String → Bool → Except String Bool

/-- The per-image loop (migrator.py lines 716-723): 1-based enumeration,
index 1 is the main image, a per-image exception is caught and the image
is simply not counted. -/
def countImageSuccess (env : MigEnv) (pid : String) : List String → Nat → Nat
  | [], _ => 0
  | img :: rest, idx =>
    (match env.upload img pid (idx == 1) with
     | .ok true => 1
     | .ok false => 0
     | .error _ => 0) + countImageSuccess env pid rest (idx + 1)

/-- Migration of one staged product: `none` when the glob finds no image
(the product is skipped and neither counter is touched), `some true` when
it counts as successful (all or some images uploaded), `some false` when
no image uploaded. -/
def migrateProduct (env : MigEnv) (name : String) (d : ProductData) : Option Bool :=
  if (env.glob d.folder name).isEmpty then none
  else
    if countImageSuccess env d.id (env.glob d.folder name) 1 =
        (env.glob d.folder name).length then some true
    else if 0 < countImageSuccess env d.id (env.glob d.folder name) 1 then some true
    else some false

/-- The product loop of `migrate_to_woocommerce`, accumulating
`(success_count, failed_count)`. -/
def migrateLoop (env : MigEnv) : List (String × ProductData) → Nat × Nat
  | [] => (0, 0)
  | (name, d) :: rest =>
    match migrateProduct env name d with
    | none => migrateLoop env rest
    | some true => ((migrateLoop env rest).1 + 1, (migrateLoop env rest).2)
    | some false => ((migrateLoop env rest).1, (migrateLoop env rest).2 + 1)

/-- Embeds `ImageMigrator.migrate_to_woocommerce`: returns
`(success_count > 0, success_count, failed_count)` (an empty staging map
returns `False` immediately). -/
def migrate_to_woocommerce (env : MigEnv) (products : List (String × ProductData)) :
    Bool × Nat × Nat :=
  if products.isEmpty then (false, 0, 0)
  else ((migrateLoop env products).1 > 0, migrateLoop env products)

/-! ## Theorems -/

theorem pyStrNatAux_eq_digits :
    ∀ (fuel n : Nat), 0 < n → n < fuel →
      pyStrNatAux fuel n = ((Nat.digits 10 n).map Nat.digitChar).reverse := by
  intro fuel
  induction fuel with
  | zero => intro n _ h; omega
  | succ f ih =>
    intro n hn hlt
    rw [pyStrNatAux]
    by_cases h10 : n < 10
    · simp only [if_pos h10]
      rw [Nat.digits_def' (by norm_num) hn]
      have hdiv : n / 10 = 0 := Nat.div_eq_of_lt h10
      have hmod : n % 10 = n := Nat.mod_eq_of_lt h10
      rw [hdiv, hmod]
      simp
    · simp only [if_neg h10]
      have hdivpos : 0 < n / 10 := Nat.div_pos (by omega) (by omega)
      have hdivlt : n / 10 < f := by
        have h1 : n / 10 < n := Nat.div_lt_self hn (by omega)
        omega
      rw [ih (n / 10) hdivpos hdivlt]
      rw [Nat.digits_def' (by norm_num) hn]
      simp

theorem pyStrNat_eq_digits (n : Nat) (hn : 0 < n) :
    (pyStrNat n).data = ((Nat.digits 10 n).map Nat.digitChar).reverse := by
  show pyStrNatAux (n + 1) n = _
  exact pyStrNatAux_eq_digits (n + 1) n hn (by omega)

/-- Claim C8: for every positive product identifier `p`, the computed
remote image directory equals the configured base path followed by the
decimal digits of `p` (most significant first, one single-character
segment each) joined by slashes, with a trailing slash. -/
theorem claim_C8_remote_path (basePath : String) (p : Nat) (hp : 0 < p) :
    product_folder_path basePath p =
      basePath ++
        String.intercalate "/"
          (((Nat.digits 10 p).map (fun d => String.singleton (Nat.digitChar d))).reverse) ++
        "/" := by
  unfold product_folder_path
  rw [pyStrNat_eq_digits p hp]
  rw [List.map_reverse, List.map_map]
  rfl

/-- Witness for claim C8 at product id 123 under base path `/img/p/`. -/
theorem claim_C8_remote_path_witness :
    product_folder_path "/img/p/" 123 =
      "/img/p/" ++
        String.intercalate "/"
          (((Nat.digits 10 123).map (fun d => String.singleton (Nat.digitChar d))).reverse) ++
        "/" :=
  claim_C8_remote_path "/img/p/" 123 (by decide)

/-- The concrete shape of the computed remote directory for product 123
under the default base path from config.py. -/
theorem product_folder_path_123 : product_folder_path "/img/p/" 123 = "/img/p/1/2/3/" := by
  decide

/-- Claim C9 counterexample: calling `connect` while a session (id 1) is
already stored and the transport hands back a fresh session (id 2)
replaces the stored session, so the connection state is not left
unchanged — `connect` is not a no-op on an already-connected client. -/
theorem claim_C9_second_connect_counterexample :
    ftp_connect ⟨"ftp.example.com", some 1⟩ (.ok 2) =
        .ok (true, ⟨"ftp.example.com", some 2⟩) ∧
      (⟨"ftp.example.com", some 2⟩ : FtpState) ≠ ⟨"ftp.example.com", some 1⟩ := by
  exact ⟨rfl, by decide⟩

/-- Claim C9 (amended): a second call to `connect` while a session is
already connected succeeds, but is not a no-op: it establishes a fresh
session and stores it, replacing the previous connection object (which is
discarded without `quit`). -/
theorem claim_C9_second_connect_replaces (st : FtpState) (sid : Nat) :
    ftp_connect st (.ok sid) = .ok (true, { host := st.host, connection := some sid }) :=
  rfl

/-- Claim C6: evaluation of `_get_product_name` on its decisive inputs.
A missing row yields the absence signal without an exception, but a
genuine query failure and a genuine connection failure are also silently
converted into the absence signal `None` instead of raising
`DatabaseError`, contradicting the claim and the function docstring. -/
theorem claim_C6_lookup_swallows_failures :
    get_product_name .noRow "7" = .ok none ∧
      get_product_name (.queryFail "Lost connection to MySQL server") "7" = .ok none ∧
      get_product_name (.connFail "Access denied") "7" = .ok none :=
  ⟨rfl, rfl, rfl⟩

/-! ### Classification lemmas (claim C3) -/

theorem splitOnCharAux_no_sep (c : Char) :
    ∀ (l cur : List Char), (∀ x ∈ l, x ≠ c) →
      splitOnCharAux c l cur = [cur.reverse ++ l] := by
  intro l
  induction l with
  | nil => intro cur _; simp [splitOnCharAux]
  | cons x xs ih =>
    intro cur h
    have hx : x ≠ c := h x (List.mem_cons_self x xs)
    rw [splitOnCharAux, if_neg hx, ih (x :: cur) (fun y hy => h y (List.mem_cons_of_mem x hy))]
    simp

theorem splitOnCharAux_first_sep (c : Char) :
    ∀ (l cur rest : List Char), (∀ x ∈ l, x ≠ c) →
      splitOnCharAux c (l ++ c :: rest) cur =
        (cur.reverse ++ l) :: splitOnCharAux c rest [] := by
  intro l
  induction l with
  | nil => intro cur rest _; simp [splitOnCharAux]
  | cons x xs ih =>
    intro cur rest h
    have hx : x ≠ c := h x (List.mem_cons_self x xs)
    rw [List.cons_append, splitOnCharAux, if_neg hx,
      ih (x :: cur) rest (fun y hy => h y (List.mem_cons_of_mem x hy))]
    simp

theorem digitsToNatAux_eq (l : List Char) :
    ∀ acc : Nat, digitsToNatAux l acc =
      acc * 10 ^ l.length + Nat.ofDigits 10 ((l.map (fun c => c.toNat - 48)).reverse) := by
  induction l with
  | nil => intro acc; simp [digitsToNatAux]
  | cons x xs ih =>
    intro acc
    rw [digitsToNatAux, ih]
    simp only [List.map_cons, List.reverse_cons, Nat.ofDigits_append, List.length_cons,
      List.length_reverse, List.length_map, Nat.ofDigits_singleton]
    ring

theorem digitsToNat_eq_specDigitVal (ds : String) : digitsToNat ds.data = specDigitVal ds := by
  unfold digitsToNat specDigitVal
  rw [digitsToNatAux_eq]
  simp

theorem digit_ne_dash {c : Char} (h : c.isDigit = true) : c ≠ '-' := by
  intro he; rw [he] at h; exact absurd h (by decide)

theorem digit_ne_dot {c : Char} (h : c.isDigit = true) : c ≠ '.' := by
  intro he; rw [he] at h; exact absurd h (by decide)

theorem jpg_data_eq : (".jpg" : String).data = '.' :: 'j' :: 'p' :: 'g' :: [] := rfl

theorem jpg_no_dash : ∀ x ∈ (".jpg" : String).data, x ≠ '-' := by
  rw [jpg_data_eq]
  intro x hx
  simp only [List.mem_cons, List.not_mem_nil, or_false] at hx
  rcases hx with rfl | rfl | rfl | rfl <;> decide

theorem decomp_data (pid ds : String) :
    (pid ++ "-" ++ ds ++ ".jpg").data =
      pid.data ++ '-' :: (ds.data ++ (".jpg" : String).data) := by
  have h1 : ("-" : String).data = ['-'] := rfl
  simp [String.data_append, h1]

theorem suffixNum_decomp (pid ds : String)
    (hpid : pid.data.all Char.isDigit = true) (hds : ds.data.all Char.isDigit = true) :
    suffixNum (pid ++ "-" ++ ds ++ ".jpg") = digitsToNat ds.data := by
  have hpd : ∀ x ∈ pid.data, x ≠ '-' :=
    fun x hx => digit_ne_dash (List.all_eq_true.mp hpid x hx)
  have hrest : ∀ x ∈ ds.data ++ (".jpg" : String).data, x ≠ '-' := by
    intro x hx
    rcases List.mem_append.mp hx with h | h
    · exact digit_ne_dash (List.all_eq_true.mp hds x h)
    · exact jpg_no_dash x h
  have hdsdot : ∀ x ∈ ds.data, x ≠ '.' :=
    fun x hx => digit_ne_dot (List.all_eq_true.mp hds x hx)
  unfold suffixNum
  rw [decomp_data]
  unfold splitOnChar
  rw [splitOnCharAux_first_sep '-' pid.data [] _ hpd]
  rw [splitOnCharAux_no_sep '-' _ [] hrest]
  simp only [List.reverse_nil, List.nil_append, List.getD_cons_succ, List.getD_cons_zero]
  show digitsToNat ((splitOnCharAux '.' (ds.data ++ '.' :: (['j', 'p', 'g'] : List Char)) []).getD 0 []) =
    digitsToNat ds.data
  rw [splitOnCharAux_first_sep '.' ds.data [] (['j', 'p', 'g'] : List Char) hdsdot]
  simp

theorem string_ne_empty_iff (s : String) : s ≠ "" ↔ s.data ≠ [] := by
  constructor
  · intro h hd
    exact h (String.ext hd)
  · intro h hd
    exact h (by rw [hd])

theorem additionalSuffix_decomp (pid ds : String) :
    additionalSuffix pid (pid ++ "-" ++ ds ++ ".jpg") = ds.data := by
  unfold additionalSuffix
  have hdata : (pid ++ "-" ++ ds ++ ".jpg").data =
      (pid.data ++ ['-']) ++ (ds.data ++ (".jpg" : String).data) := by
    rw [decomp_data]; simp
  rw [hdata]
  have hlen : pid.data.length + 1 = (pid.data ++ ['-']).length := by simp
  rw [hlen, List.drop_left]
  have hlen2 : (ds.data ++ (".jpg" : String).data).length - 4 = ds.data.length := by
    rw [jpg_data_eq]; simp
  rw [hlen2, List.take_left]

theorem isAdditionalFile_iff (pid f : String) :
    isAdditionalFile pid f = true ↔
      ∃ ds : String, ds ≠ "" ∧ ds.data.all Char.isDigit = true ∧
        f = pid ++ "-" ++ ds ++ ".jpg" := by
  constructor
  · intro h
    unfold isAdditionalFile at h
    simp only [Bool.and_eq_true, Bool.not_eq_eq_eq_not, Bool.not_true, beq_iff_eq] at h
    obtain ⟨⟨hne, hdig⟩, hdata⟩ := h
    refine ⟨String.mk (additionalSuffix pid f), ?_, hdig, ?_⟩
    · rw [string_ne_empty_iff]
      intro hd
      rw [show (String.mk (additionalSuffix pid f)).data = additionalSuffix pid f from rfl] at hd
      rw [hd] at hne
      exact absurd hne (by decide)
    · apply String.ext
      rw [hdata, decomp_data]
  · rintro ⟨ds, hne, hdig, rfl⟩
    unfold isAdditionalFile
    rw [additionalSuffix_decomp]
    simp only [Bool.and_eq_true, Bool.not_eq_eq_eq_not, Bool.not_true, beq_iff_eq]
    refine ⟨⟨?_, hdig⟩, by rw [decomp_data]⟩
    rcases hd : ds.data with _ | _
    · exact absurd (String.ext hd) hne
    · rfl

theorem isMainFile_iff (pid f : String) : isMainFile pid f = true ↔ f = pid ++ ".jpg" :=
  beq_iff_eq

theorem isMainFile_endsWith {pid f : String} (h : isMainFile pid f = true) :
    pyEndsWith f ".jpg" = true := by
  rw [isMainFile_iff] at h
  subst h
  unfold pyEndsWith
  rw [List.isSuffixOf_iff_suffix, String.data_append]
  exact ⟨pid.data, rfl⟩

theorem isAdditionalFile_endsWith {pid f : String} (h : isAdditionalFile pid f = true) :
    pyEndsWith f ".jpg" = true := by
  obtain ⟨ds, _, _, rfl⟩ := (isAdditionalFile_iff pid f).mp h
  unfold pyEndsWith
  rw [List.isSuffixOf_iff_suffix, decomp_data]
  exact ⟨pid.data ++ '-' :: ds.data, by simp⟩

theorem main_additional_disjoint {pid f : String} (hm : isMainFile pid f = true)
    (ha : isAdditionalFile pid f = true) : False := by
  rw [isMainFile_iff] at hm
  obtain ⟨ds, _, _, hf⟩ := (isAdditionalFile_iff pid f).mp ha
  rw [hm] at hf
  have hd := congrArg String.data hf
  rw [String.data_append, decomp_data] at hd
  have := List.append_cancel_left hd
  rw [jpg_data_eq] at this
  exact absurd (List.head_eq_of_cons_eq this) (by decide)

theorem classifyStep_eq (pid : String) (acc : Option String × List String) (f : String) :
    classifyStep pid acc f =
      ((if isMainFile pid f then some f else acc.1),
        acc.2 ++ (if isAdditionalFile pid f then [f] else [])) := by
  unfold classifyStep
  by_cases hM : isMainFile pid f = true
  · have hA : isAdditionalFile pid f = false := by
      rcases h : isAdditionalFile pid f with _ | _
      · rfl
      · exact absurd (main_additional_disjoint hM h) not_false
    rw [isMainFile_endsWith hM]
    simp [hM, hA]
  · by_cases hA : isAdditionalFile pid f = true
    · rw [isAdditionalFile_endsWith hA]
      simp [hM, hA]
    · rcases hE : pyEndsWith f ".jpg" with _ | _ <;> simp [hM, hA]

theorem classify_fold (pid : String) :
    ∀ (files : List String) (m : Option String) (adds : List String),
      files.foldl (classifyStep pid) (m, adds) =
        (files.foldl (fun m f => if isMainFile pid f then some f else m) m,
          adds ++ files.filter (fun f => isAdditionalFile pid f)) := by
  intro files
  induction files with
  | nil => intro m adds; simp
  | cons f fs ih =>
    intro m adds
    rw [List.foldl_cons, classifyStep_eq, ih, List.foldl_cons]
    by_cases hA : isAdditionalFile pid f = true <;>
      simp [hA, List.filter_cons]

theorem mainFold_eq (pid : String) :
    ∀ (files : List String) (m : Option String),
      files.foldl (fun m f => if isMainFile pid f then some f else m) m =
        (if (pid ++ ".jpg") ∈ files then some (pid ++ ".jpg") else m) := by
  intro files
  induction files with
  | nil => intro m; simp
  | cons f fs ih =>
    intro m
    rw [List.foldl_cons]
    by_cases hM : isMainFile pid f = true
    · have hf : f = pid ++ ".jpg" := (isMainFile_iff pid f).mp hM
      subst hf
      rw [if_pos hM, ih]
      simp
    · have hf : ¬(pid ++ ".jpg" = f) := fun h => hM ((isMainFile_iff pid f).mpr h.symm)
      rw [if_neg hM, ih]
      simp [List.mem_cons, hf]

theorem get_product_images_fst (pid : String) (files : List String) :
    (get_product_images pid files).1 =
      (if (pid ++ ".jpg") ∈ files then some (pid ++ ".jpg") else none) := by
  unfold get_product_images
  rw [classify_fold, mainFold_eq]

theorem get_product_images_snd (pid : String) (files : List String) :
    (get_product_images pid files).2 =
      (files.filter (fun f => isAdditionalFile pid f)).insertionSort suffixLE := by
  unfold get_product_images
  rw [classify_fold]
  simp

theorem decomp_inj {pid x y : String}
    (h : pid ++ "-" ++ x ++ ".jpg" = pid ++ "-" ++ y ++ ".jpg") : x = y := by
  have hd := congrArg String.data h
  rw [decomp_data, decomp_data] at hd
  have h1 := List.append_cancel_left hd
  have h2 := List.tail_eq_of_cons_eq h1
  exact String.ext (List.append_cancel_right h2)

/-- Claim C3 counterexample: for product id 5 the file `5-0.jpg` is
classified as an additional image even though its suffix 0 is not a
positive integer (`\d+` also accepts 0), refuting the claimed
"additional iff positive n". -/
theorem claim_C3_classification_counterexample :
    get_product_images "5" ["5-0.jpg"] = (none, ["5-0.jpg"]) := by decide

/-- Claim C3 (amended): for every all-digit product id `p` and list of
remote file names, a file is classified as main iff its name is exactly
`<p>.jpg`, as additional iff its name is `<p>-<ds>.jpg` with `ds` a
nonempty decimal digit string (numeric value `n ≥ 0`, leading zeros
allowed — not only positive `n`), every other file is ignored, and the
additional list is sorted ascending by the numeric value of the digit
suffix rather than by string order. -/
theorem claim_C3_classification (pid : String) (files : List String)
    (hpid : pid.data.all Char.isDigit = true) :
    (get_product_images pid files).1 =
        (if (pid ++ ".jpg") ∈ files then some (pid ++ ".jpg") else none) ∧
      (∀ f, f ∈ (get_product_images pid files).2 ↔
        (f ∈ files ∧ ∃ ds : String, ds ≠ "" ∧ ds.data.all Char.isDigit = true ∧
          f = pid ++ "-" ++ ds ++ ".jpg")) ∧
      List.Pairwise
        (fun a b => ∀ da db : String,
          a = pid ++ "-" ++ da ++ ".jpg" → b = pid ++ "-" ++ db ++ ".jpg" →
          specDigitVal da ≤ specDigitVal db)
        (get_product_images pid files).2 := by
  refine ⟨get_product_images_fst pid files, ?_, ?_⟩
  · intro f
    rw [get_product_images_snd, List.mem_insertionSort, List.mem_filter,
      isAdditionalFile_iff]
  · have hs : List.Pairwise suffixLE (get_product_images pid files).2 := by
      rw [get_product_images_snd]
      exact List.sorted_insertionSort suffixLE _
    refine List.Pairwise.imp_of_mem ?_ hs
    intro a b ha hb hab da db hda hdb
    rw [get_product_images_snd, List.mem_insertionSort, List.mem_filter] at ha hb
    obtain ⟨dsa, _, hdsa_dig, hdecompa⟩ := (isAdditionalFile_iff pid a).mp ha.2
    obtain ⟨dsb, _, hdsb_dig, hdecompb⟩ := (isAdditionalFile_iff pid b).mp hb.2
    have hea : da = dsa := decomp_inj (hda.symm.trans hdecompa)
    have heb : db = dsb := decomp_inj (hdb.symm.trans hdecompb)
    subst hea; subst heb
    rw [← digitsToNat_eq_specDigitVal, ← digitsToNat_eq_specDigitVal]
    rw [← suffixNum_decomp pid da hpid hdsa_dig, ← suffixNum_decomp pid db hpid hdsb_dig]
    rw [← hdecompa, ← hdecompb]
    exact hab

/-- Witness for claim C3 at product id 5 with a concrete listing. -/
theorem claim_C3_classification_witness :
    ("5" : String).data.all Char.isDigit = true ∧
      (get_product_images "5" ["5.jpg", "5-10.jpg", "5-2.jpg", "6.jpg"]).1 =
        (if ("5" ++ ".jpg") ∈ ["5.jpg", "5-10.jpg", "5-2.jpg", "6.jpg"]
          then some ("5" ++ ".jpg") else none) :=
  ⟨by decide,
    (claim_C3_classification "5" ["5.jpg", "5-10.jpg", "5-2.jpg", "6.jpg"] (by decide)).1⟩

/-- The classification example from the specification: for product id 5
and listing `5.jpg, 5-2.jpg, 5-1.jpg, 6.jpg`, the main image is `5.jpg`,
the additional images are `5-1.jpg, 5-2.jpg`, and `6.jpg` is excluded. -/
theorem get_product_images_spec_example :
    get_product_images "5" ["5.jpg", "5-2.jpg", "5-1.jpg", "6.jpg"] =
      (some "5.jpg", ["5-1.jpg", "5-2.jpg"]) := by decide

/-- Numeric rather than lexicographic ordering of additional images:
`5-10.jpg` sorts after `5-2.jpg`. -/
theorem get_product_images_numeric_sort :
    get_product_images "5" ["5-10.jpg", "5-2.jpg"] = (none, ["5-2.jpg", "5-10.jpg"]) := by
  decide

/-! ### Upload lemmas (claims C1, C4, C5) -/

theorem upload_image_happy (st : WooState) (path pid : String) (isMain : Bool) :
    upload_image (happyEnv st) path pid isMain =
      if pyBasename path ≠ "" ∧
          st.media.any (fun t => pyLower t == pyLower (pyBasename path)) = true
      then .ok .alreadyExists
      else .ok (.uploaded (if isMain then st.nextId :: st.productImages
        else st.productImages ++ [st.nextId])) := by
  by_cases hn : pyBasename path = ""
  · simp [upload_image, uploadTry, check_image_exists, happyEnv, hn]
  · rcases hb : st.media.any (fun t => pyLower t == pyLower (pyBasename path)) with _ | _
    · simp [upload_image, uploadTry, check_image_exists, happyEnv, hn, hb]
    · simp [upload_image, uploadTry, check_image_exists, happyEnv, hn, hb]

theorem wooStep_eq (st : WooState) (path pid : String) (isMain : Bool) :
    wooStep st path pid isMain =
      if pyBasename path ≠ "" ∧
          st.media.any (fun t => pyLower t == pyLower (pyBasename path)) = true
      then st
      else
        { media := pyBasename path :: st.media, nextId := st.nextId + 1,
          productImages := if isMain then st.nextId :: st.productImages
            else st.productImages ++ [st.nextId] } := by
  unfold wooStep
  rw [upload_image_happy]
  by_cases hc : pyBasename path ≠ "" ∧
      st.media.any (fun t => pyLower t == pyLower (pyBasename path)) = true
  · rw [if_pos hc, if_pos hc]
  · rw [if_neg hc, if_neg hc]

/-- The environment of the claim C1 counterexample: the local file
exists, the image is not yet in the media library, the raw media upload
succeeds with HTTP 201 (media id 42), but the product fetch answers with
HTTP 500. -/
def envC1 : WPEnv where
  fileExists := fun _ => true
  mediaSearch := fun _ => .ok []
  postMedia := .response 201 "" 42
  getProduct := .response 500 "Internal Server Error" []
  putProduct := fun _ => .response 200 ""

/-- Claim C1 counterexample: a non-2xx response (HTTP 500) on the product
fetch is NOT propagated as `APIError` — the final `except Exception`
clause of `upload_image` wraps it into `ImageUploadError` whose cause is
the stringified `APIError`. -/
theorem claim_C1_api_error_counterexample :
    upload_image envC1 "/tmp/7.jpg" "7" true =
      .error (.imageUploadError "/tmp/7.jpg"
        "Erreur API (products/7): 500 - Internal Server Error") := rfl

/-- Claim C1 (amended): after the file-existence check, every failure of
`upload_image` — network-level (timeout, request error) or a non-2xx API
response on any of the media upload, product fetch or product update —
is reported as `ImageUploadError` carrying the local path and a cause
string; in particular a timeout surfaces the timeout cause, and `APIError`
never escapes (it is wrapped into the cause). -/
theorem claim_C1_failures_wrapped (env : WPEnv) (path pid : String) (isMain : Bool)
    (hfe : env.fileExists path = true) :
    (∀ e, upload_image env path pid isMain = .error e →
        ∃ cause, e = .imageUploadError path cause) ∧
      (check_image_exists (pyBasename path) (env.mediaSearch (pyBasename path)) = .ok false →
        env.postMedia = .timeout →
        upload_image env path pid isMain =
          .error (.imageUploadError path "Timeout de la requête")) := by
  constructor
  · intro e he
    simp only [upload_image, hfe, if_true] at he
    rcases hU : uploadTry env path pid isMain with pe | r
    · rw [hU] at he
      cases pe with
      | timeout => exact ⟨_, by injection he with h; exact h.symm⟩
      | reqExc m => exact ⟨_, by injection he with h; exact h.symm⟩
      | apiExc a s b => exact ⟨_, by injection he with h; exact h.symm⟩
    · rw [hU] at he
      cases he
  · intro hchk hpost
    simp [upload_image, uploadTry, hfe, hchk, hpost]

/-- Witness for claim C1 against the concrete failing environment. -/
theorem claim_C1_failures_wrapped_witness :
    ∃ cause,
      UploadErr.imageUploadError "/tmp/7.jpg"
          (apiErrorMessage "products/7" 500 "Internal Server Error") =
        UploadErr.imageUploadError "/tmp/7.jpg" cause :=
  (claim_C1_failures_wrapped envC1 "/tmp/7.jpg" "7" true rfl).1 _ rfl

/-- Claim C4: on a successful fresh upload the image list sent to the
product update is the current destination list with the new media id
prepended when the image is main and appended when it is secondary,
preserving the previous images in order; and the two sequence examples —
main then two secondaries onto an empty product gives
`[main, secondary1, secondary2]`, and a main image onto a product with
one prior image `X = 99` gives `[main, X]`. -/
theorem claim_C4_image_merge :
    (∀ (st : WooState) (path pid : String) (isMain : Bool),
        st.media.any (fun t => pyLower t == pyLower (pyBasename path)) = false →
        upload_image (happyEnv st) path pid isMain =
          .ok (.uploaded (if isMain then st.nextId :: st.productImages
            else st.productImages ++ [st.nextId]))) ∧
      (wooStep (wooStep (wooStep ⟨[], 1, []⟩ "m.jpg" "7" true) "s1.jpg" "7" false)
          "s2.jpg" "7" false).productImages = [1, 2, 3] ∧
      (wooStep ⟨[], 1, [99]⟩ "m.jpg" "7" true).productImages = [1, 99] := by
  refine ⟨?_, by decide, by decide⟩
  intro st path pid isMain hb
  rw [upload_image_happy]
  rw [if_neg]
  rintro ⟨-, hA⟩
  rw [hb] at hA
  cases hA

/-- Witness for claim C4: a fresh main upload onto a product whose prior
image list is `[99]`, with next media id 5, sends `[5, 99]`. -/
theorem claim_C4_image_merge_witness :
    upload_image (happyEnv ⟨[], 5, [99]⟩) "m.jpg" "7" true = .ok (.uploaded [5, 99]) := by
  have h := claim_C4_image_merge.1 ⟨[], 5, [99]⟩ "m.jpg" "7" true (by decide)
  simpa using h

/-- Claim C5: if the media-existence check reports the base name of an
existing local file as already present, `upload_image` returns success
immediately (`alreadyExists` records that no upload, product fetch or
product update is performed); consequently a second call with the same
image name and product after a successful first call against the live
destination state short-circuits to success without re-uploading. -/
theorem claim_C5_idempotent_by_name :
    (∀ (env : WPEnv) (path pid : String) (isMain : Bool),
        env.fileExists path = true →
        check_image_exists (pyBasename path) (env.mediaSearch (pyBasename path)) = .ok true →
        upload_image env path pid isMain = .ok .alreadyExists) ∧
      (∀ (st : WooState) (path pid : String) (m1 m2 : Bool),
        pyBasename path ≠ "" →
        upload_image (happyEnv (wooStep st path pid m1)) path pid m2 =
          .ok .alreadyExists) := by
  constructor
  · intro env path pid isMain hfe hchk
    simp [upload_image, uploadTry, hfe, hchk]
  · intro st path pid m1 m2 hn
    rw [wooStep_eq]
    by_cases hc : pyBasename path ≠ "" ∧
        st.media.any (fun t => pyLower t == pyLower (pyBasename path)) = true
    · rw [if_pos hc, upload_image_happy, if_pos hc]
    · rw [if_neg hc, upload_image_happy, if_pos ⟨hn, by simp⟩]

/-- Witness for claim C5: the media library already holds `x.jpg`, so
uploading local file `a/x.jpg` short-circuits to success. -/
theorem claim_C5_idempotent_by_name_witness :
    upload_image (happyEnv ⟨["x.jpg"], 3, []⟩) "a/x.jpg" "7" false = .ok .alreadyExists :=
  claim_C5_idempotent_by_name.1 (happyEnv ⟨["x.jpg"], 3, []⟩) "a/x.jpg" "7" false rfl rfl

/-! ### Extraction lemmas (claims C2, C7) -/

/-- `download_image` has no execution path returning `False`: a failed
transfer raises `FileSystemError` instead, although both its docstring
and its caller (`if ftp.download_image(...)`) expect `False`. -/
theorem download_image_never_false (r : Except String Unit) (p : String) :
    download_image r p ≠ .ok false := by
  cases r <;> simp [download_image]

/-- Environment of the claim C2 failing input: product directory `7`
resolves to name `prod` with a main image `7.jpg` and one additional
image `7-1.jpg`; the transfer of `7.jpg` fails, the transfer of
`7-1.jpg` would succeed. -/
def envC2 : ExtractEnv where
  getName := fun d => if d == "7" then some "prod" else none
  getImages := fun d =>
    if d == "7" then .ok (some "7.jpg", ["7-1.jpg"]) else .error (.other "x")
  retr := fun img => if img == "7.jpg" then .error "551 Fichier introuvable" else .ok ()
  getStock := fun _ => 3

/-- Claim C2: evaluation of the code at the failing input. The failed
download raises `FileSystemError`, which propagates out of the download
loop into the per-product handler, so the whole product is aborted: the
remaining image is not downloaded, no `ProductRecord` is stored, and the
run reports failure — instead of the claimed logging-and-skipping of the
single failed image with a stored record counting 1 successful
download. -/
theorem claim_C2_download_failure_aborts_product :
    download_image (envC2.retr "7.jpg") "7.jpg" =
        .error (.fsError "téléchargement" "7.jpg" "551 Fichier introuvable") ∧
      extract_prestashop_data envC2 ["7"] = (false, []) := by
  constructor
  · rfl
  · decide

theorem extractLoop_skip_error (env : ExtractEnv) (bad : String) (ds2 : List String)
    (e : ProdErr) (he : processProduct env bad = .error e) :
    ∀ (ds1 : List String) (recs : List (String × ProductData)) (n : Nat),
      extractLoop env (ds1 ++ bad :: ds2) recs n = extractLoop env (ds1 ++ ds2) recs n := by
  intro ds1
  induction ds1 with
  | nil =>
    intro recs n
    by_cases hb : isNumericStr bad = true
    · simp [extractLoop, hb, he]
    · simp [extractLoop, hb]
  | cons d ds ih =>
    intro recs n
    by_cases hd : isNumericStr d = true
    · rcases hp : processProduct env d with e' | o
      · simp [extractLoop, hd, hp, ih]
      · rcases o with _ | ⟨name, data⟩
        · simp [extractLoop, hd, hp, ih]
        · simp [extractLoop, hd, hp, ih]
    · simp [extractLoop, hd, ih]

/-- A directory counts in `products_processed` iff it is numeric and its
processing fully succeeds. -/
def procOk (env : ExtractEnv) (d : String) : Bool :=
  isNumericStr d &&
    (match processProduct env d with
     | .ok (some _) => true
     | _ => false)

theorem extractLoop_count (env : ExtractEnv) :
    ∀ (dirs : List String) (recs : List (String × ProductData)) (n : Nat),
      (extractLoop env dirs recs n).2 = n + dirs.countP (procOk env) := by
  intro dirs
  induction dirs with
  | nil => intro recs n; simp [extractLoop]
  | cons d ds ih =>
    intro recs n
    rw [List.countP_cons]
    by_cases hd : isNumericStr d = true
    · rcases hp : processProduct env d with e' | o
      · simp [extractLoop, hd, hp, ih, procOk]
      · rcases o with _ | ⟨name, data⟩
        · simp [extractLoop, hd, hp, ih, procOk]
        · simp [extractLoop, hd, hp, ih, procOk]
          omega
    · simp [extractLoop, hd, ih, procOk]

theorem procOk_iff (env : ExtractEnv) (d : String) :
    procOk env d = true ↔
      (isNumericStr d = true ∧ ∃ r, processProduct env d = .ok (some r)) := by
  unfold procOk
  rw [Bool.and_eq_true]
  rcases hp : processProduct env d with e | o
  · simp [hp]
  · rcases o with _ | r
    · simp [hp]
    · simp [hp]

/-- Claim C7: an exception while processing one product identifier is
caught and the walk continues unchanged — dropping the failing directory
from the listing gives the exact same run result — and the extraction
returns success iff at least one product was fully processed (numeric
directory whose processing stored a record). -/
theorem claim_C7_per_product_isolation :
    (∀ (env : ExtractEnv) (ds1 ds2 : List String) (bad : String) (e : ProdErr),
        processProduct env bad = .error e →
        extract_prestashop_data env (ds1 ++ bad :: ds2) =
          extract_prestashop_data env (ds1 ++ ds2)) ∧
      (∀ (env : ExtractEnv) (dirs : List String),
        (extract_prestashop_data env dirs).1 = true ↔
          ∃ d ∈ dirs, isNumericStr d = true ∧
            ∃ r, processProduct env d = .ok (some r)) := by
  constructor
  · intro env ds1 ds2 bad e he
    unfold extract_prestashop_data
    rw [extractLoop_skip_error env bad ds2 e he ds1]
  · intro env dirs
    unfold extract_prestashop_data
    rw [extractLoop_count]
    simp only [Nat.zero_add, decide_eq_true_eq]
    rw [gt_iff_lt, List.countP_pos_iff]
    constructor
    · rintro ⟨d, hd, hok⟩
      exact ⟨d, hd, (procOk_iff env d).mp hok⟩
    · rintro ⟨d, hd, hok⟩
      exact ⟨d, hd, (procOk_iff env d).mpr hok⟩

/-- Environment of the claim C7 witness: every directory resolves, but
listing the images of directory `2` raises `FileSystemError`. -/
def envC7 : ExtractEnv where
  getName := fun d => some ("p" ++ d)
  getImages := fun d =>
    if d == "2" then .error (.fsError "récupération des images" "/img/p/2/" "550")
    else .ok (some (d ++ ".jpg"), [])
  retr := fun _ => .ok ()
  getStock := fun _ => 0

/-- Witness for claim C7: a run over `1, 2, 3` where directory `2`
throws during listing equals the run over `1, 3`. -/
theorem claim_C7_per_product_isolation_witness :
    extract_prestashop_data envC7 (["1"] ++ "2" :: ["3"]) =
      extract_prestashop_data envC7 (["1"] ++ ["3"]) :=
  claim_C7_per_product_isolation.1 envC7 ["1"] ["3"] "2"
    (.fsError "récupération des images" "/img/p/2/" "550") rfl

/-- Fully evaluated three-directory run of the claim C7 scenario: the
failing directory `2` is skipped, records exist for the other two, and
the run-level return indicates success. -/
theorem extract_three_dirs_example :
    extract_prestashop_data envC7 ["1", "2", "3"] =
      (true, [("p1", ⟨"1", 1, 0, "p1"⟩), ("p3", ⟨"3", 1, 0, "p3"⟩)]) := by decide

/-! ### Migration driver lemmas (claim C10) -/

theorem migrateLoop_sum (env : MigEnv) :
    ∀ products : List (String × ProductData),
      (migrateLoop env products).1 + (migrateLoop env products).2 =
        products.countP (fun p => !(env.glob p.2.folder p.1).isEmpty) := by
  intro products
  induction products with
  | nil => simp [migrateLoop]
  | cons p rest ih =>
    rcases p with ⟨name, d⟩
    rw [List.countP_cons]
    by_cases hg : (env.glob d.folder name).isEmpty = true
    · simp [migrateLoop, migrateProduct, hg, ih]
    · by_cases h1 : countImageSuccess env d.id (env.glob d.folder name) 1 =
          (env.glob d.folder name).length
      · simp [migrateLoop, migrateProduct, hg, h1, ih]
        omega
      · by_cases h2 : 0 < countImageSuccess env d.id (env.glob d.folder name) 1
        · simp [migrateLoop, migrateProduct, hg, h1, h2, ih]
          omega
        · simp [migrateLoop, migrateProduct, hg, h1, h2, ih]
          omega

/-- Claim C10: a staged product whose staging folder yields no matching
file at upload time is counted as neither successful nor failed —
`successful_migrations + failed_migrations` equals the number of staged
products with a non-empty glob, and is strictly smaller than the number
of staged products as soon as one staged product has an empty glob. -/
theorem claim_C10_skipped_products_not_counted :
    (∀ (env : MigEnv) (products : List (String × ProductData)),
        (migrate_to_woocommerce env products).2.1 +
            (migrate_to_woocommerce env products).2.2 =
          products.countP (fun p => !(env.glob p.2.folder p.1).isEmpty)) ∧
      (∀ (env : MigEnv) (products : List (String × ProductData))
          (p : String × ProductData),
        p ∈ products → env.glob p.2.folder p.1 = [] →
        (migrate_to_woocommerce env products).2.1 +
            (migrate_to_woocommerce env products).2.2 < products.length) := by
  have hsum : ∀ (env : MigEnv) (products : List (String × ProductData)),
      (migrate_to_woocommerce env products).2.1 +
          (migrate_to_woocommerce env products).2.2 =
        products.countP (fun p => !(env.glob p.2.folder p.1).isEmpty) := by
    intro env products
    by_cases hp : products.isEmpty = true
    · rw [List.isEmpty_iff.mp hp]
      simp [migrate_to_woocommerce]
    · simp [migrate_to_woocommerce, hp, migrateLoop_sum]
  refine ⟨hsum, ?_⟩
  intro env products p hmem hglob
  rw [hsum]
  rw [List.countP_eq_length_filter]
  rw [List.length_filter_lt_length_iff_exists]
  exact ⟨p, hmem, by simp [hglob]⟩

/-- Environment of the claim C10 witness: the staging folder `a` holds
one matching image, the staging folder `b` none; uploads succeed. -/
def envC10 : MigEnv where
  glob := fun folder _ => if folder == "a" then ["a-1.jpg"] else []
  upload := fun _ _ _ => .ok true

/-- Witness for claim C10: with two staged products, one of which has an
empty glob, the summary counts sum to strictly less than 2. -/
theorem claim_C10_skipped_products_not_counted_witness :
    (migrate_to_woocommerce envC10
          [("a", ⟨"1", 1, 0, "a"⟩), ("b", ⟨"2", 1, 0, "b"⟩)]).2.1 +
        (migrate_to_woocommerce envC10
          [("a", ⟨"1", 1, 0, "a"⟩), ("b", ⟨"2", 1, 0, "b"⟩)]).2.2 <
      ([("a", ⟨"1", 1, 0, "a"⟩), ("b", ⟨"2", 1, 0, "b"⟩)] :
        List (String × ProductData)).length :=
  claim_C10_skipped_products_not_counted.2 envC10
    [("a", ⟨"1", 1, 0, "a"⟩), ("b", ⟨"2", 1, 0, "b"⟩)] ("b", ⟨"2", 1, 0, "b"⟩)
    (by decide) rfl

/-- Fully evaluated migration of the claim C10 scenario: the product with
an empty glob is skipped, the other succeeds, and the summary is one
success and zero failures out of two staged products. -/
theorem migrate_two_products_example :
    migrate_to_woocommerce envC10 [("a", ⟨"1", 1, 0, "a"⟩), ("b", ⟨"2", 1, 0, "b"⟩)] =
      (true, 1, 0) := by decide

end Migrator
